import Mathlib

/-!
Verification of the announcements module of course-builder
(src/coursebuilder/modules/announcements/announcements.py).

The module is a thin CRUD controller over a datastore of announcement
records. We shallowly embed:
* the record type `AnnouncementEntity` (title, date, html, is_draft) with a
  persistent key assigned by the store;
* the datastore as a list of records plus a fresh-key counter, with the
  App Engine `db` operations `get`, `put`, `delete`, and the ordered
  `all().order(-date).fetch(n)` query;
* the rights predicates (`can_view`, `can_edit`, `can_delete`, `can_add`)
  as functions of whether the current user is an admin;
* the list/edit controller (`apply_rights`, action dispatch, `get_list`,
  `post_add`, `post_delete`) and the REST item handler (`get`, `put`,
  `send_json_response`) as pure functions from the request data and the
  store to a response and a new store;
* a small JSON value type with a serializer mirroring `json.dumps`, since
  the REST envelope double-encodes its payload.

`models.transforms`, `modules.announcements.samples` and
`modules.announcements.schema` are imported by the source file but are not
part of the provided sources; the definitions standing in for them are
modelled from the spec and carry doc comments saying so.

Dates are modelled as integers (day ordinals): the code only compares
dates for the descending sort and copies them through the transforms.
-/

/-- A JSON value, as produced by `json.loads` / consumed by `json.dumps`. -/
inductive Json where
  | null : Json
  | bool (b : Bool) : Json
  | num (n : Int) : Json
  | str (s : String) : Json
  | arr (xs : List Json) : Json
  | obj (fields : List (String × Json)) : Json

/-- Escape a string for JSON output (quote and backslash). -/
def Json.escape (s : String) : String :=
  s.foldl (fun acc c =>
    if c = '\"' then acc ++ "\\\""
    else if c = '\\' then acc ++ "\\\\"
    else acc.push c) ""

mutual

/-- Serialize a JSON value to a string, mirroring Python `json.dumps`. -/
def Json.dumps : Json → String
  | .null => "null"
  | .bool true => "true"
  | .bool false => "false"
  | .num n => toString n
  | .str s => "\"" ++ Json.escape s ++ "\""
  | .arr xs => "[" ++ Json.dumpsList xs ++ "]"
  | .obj fs => "\x7b" ++ Json.dumpsFields fs ++ "\x7d"

/-- Serialize the elements of a JSON array, comma-separated. -/
def Json.dumpsList : List Json → String
  | [] => ""
  | [x] => Json.dumps x
  | x :: xs => Json.dumps x ++ ", " ++ Json.dumpsList xs

/-- Serialize the fields of a JSON object, comma-separated. -/
def Json.dumpsFields : List (String × Json) → String
  | [] => ""
  | [p] => "\"" ++ Json.escape p.1 ++ "\": " ++ Json.dumps p.2
  | p :: ps =>
      "\"" ++ Json.escape p.1 ++ "\": " ++ Json.dumps p.2 ++ ", " ++
        Json.dumpsFields ps

end

/-- Look up a key in a JSON object (`d[k]` / `d.get(k)`); `none` when the
value is not an object or the key is absent. -/
def Json.lookup (j : Json) (k : String) : Option Json :=
  match j with
  | .obj fs => (fs.find? (fun p => p.1 == k)).map (fun p => p.2)
  | _ => none

/-- Python truthiness of a JSON value (`if payload_dict:`). -/
def Json.truthy : Json → Bool
  | .null => false
  | .bool b => b
  | .num n => n != 0
  | .str s => !(s == "")
  | .arr xs => !xs.isEmpty
  | .obj fs => !fs.isEmpty

/-- A persisted announcement record: `class AnnouncementEntity(db.Model)`
with properties `title`, `date`, `html`, `is_draft`, plus the datastore key
assigned on first `put()`. -/
structure AnnouncementEntity where
  key : Nat
  title : String
  date : Int
  html : String
  is_draft : Bool
deriving DecidableEq, Repr

/-- The schema-constrained field set of an announcement
(title, date, html, is_draft) without the key, as carried by the
transform layer between entities and JSON. -/
structure AnnouncementFields where
  title : String
  date : Int
  html : String
  is_draft : Bool
deriving DecidableEq, Repr

/-- The datastore: the stored records and the next fresh key. -/
structure Store where
  records : List AnnouncementEntity
  next_key : Nat
deriving DecidableEq, Repr

/-- Store well-formedness: every stored record's key is below the
fresh-key counter, so newly assigned keys are really fresh. -/
def Store.wf (s : Store) : Prop :=
  ∀ r ∈ s.records, r.key < s.next_key

/-- The empty datastore. -/
def Store.empty : Store := ⟨[], 0⟩

/-- A request-supplied key string: either a well-formed datastore key
naming slot `n`, or a malformed string (on which the datastore raises
`db.BadKeyError`). -/
inductive ReqKey where
  | malformed (s : String) : ReqKey
  | valid (n : Nat) : ReqKey
deriving DecidableEq, Repr

/-- The JSON rendering of a request key for the error envelopes whose
payload dict is `{'key': key}` (keys travel as strings). -/
def ReqKey.json : ReqKey → Json
  | .malformed s => .str s
  | .valid n => .str (toString n)

/-- `AnnouncementEntity.get(key)`: raises `db.BadKeyError` (`.error ()`)
on a malformed key, otherwise returns the record at that key or `None`. -/
def Store.get (s : Store) (k : ReqKey) : Except Unit (Option AnnouncementEntity) :=
  match k with
  | .malformed _ => .error ()
  | .valid n => .ok (s.records.find? (fun r => r.key == n))

/-- `entity.put()` on an entity that already has a key: overwrite the
stored record with that key, or append when no record has it. -/
def Store.putEntity (s : Store) (e : AnnouncementEntity) : Store :=
  if s.records.any (fun r => r.key == e.key) then
    { s with records := s.records.map (fun r => if r.key == e.key then e else r) }
  else
    { s with records := s.records ++ [e] }

/-- `entity = AnnouncementEntity(); ...; entity.put()` on a fresh entity:
the store assigns the next key and appends the record. -/
def Store.create (s : Store) (f : AnnouncementFields) : Store × AnnouncementEntity :=
  let e : AnnouncementEntity :=
    { key := s.next_key, title := f.title, date := f.date,
      html := f.html, is_draft := f.is_draft }
  ({ records := s.records ++ [e], next_key := s.next_key + 1 }, e)

/-- `entity.delete()`: remove the record with the given key. -/
def Store.deleteKey (s : Store) (n : Nat) : Store :=
  { s with records := s.records.filter (fun r => !(r.key == n)) }

/-- `AnnouncementsRights.can_view`: always true. -/
def can_view (_admin : Bool) : Bool := true

/-- `AnnouncementsRights.can_edit`: true iff the current user is admin. -/
def can_edit (admin : Bool) : Bool := admin

/-- `AnnouncementsRights.can_delete`: same as `can_edit`. -/
def can_delete (admin : Bool) : Bool := can_edit admin

/-- `AnnouncementsRights.can_add`: same as `can_edit`. -/
def can_add (admin : Bool) : Bool := can_edit admin

/-- `AnnouncementsHandler.apply_rights`: editors see every item; others
see only the non-draft items, in order. -/
def apply_rights (admin : Bool) (items : List AnnouncementEntity) :
    List AnnouncementEntity :=
  if can_edit admin then items
  else items.filter (fun item => !item.is_draft)

/-- Modelled from the spec: `transforms.entity_to_dict` followed by
`transforms.dict_to_json` against `schema.SCHEMA_DICT` (the source of
`models.transforms` and `modules.announcements.schema` is not provided).
Per the spec this is a schema-driven field whitelist serializing exactly
the record fields title, date, html and the draft flag (wire name
`isDraft`); dates are modelled as integers. -/
def fields_to_json (f : AnnouncementFields) : Json :=
  .obj [("title", .str f.title), ("date", .num f.date),
        ("html", .str f.html), ("isDraft", .bool f.is_draft)]

/-- Modelled from the spec: `transforms.json_to_dict` against
`schema.SCHEMA_DICT` (source not provided). Decodes the
schema-constrained field set from an incoming JSON payload; any
non-conforming payload fails. -/
def json_to_fields (j : Json) : Option AnnouncementFields :=
  match j.lookup "title", j.lookup "date", j.lookup "html",
      j.lookup "isDraft" with
  | some (.str t), some (.num d), some (.str h), some (.bool b) =>
      some { title := t, date := d, html := h, is_draft := b }
  | _, _, _, _ => none

/-- The schema-constrained field set currently stored on an entity. -/
def AnnouncementEntity.fields (e : AnnouncementEntity) : AnnouncementFields :=
  { title := e.title, date := e.date, html := e.html, is_draft := e.is_draft }

/-- Modelled from the spec: `transforms.dict_to_entity` (source not
provided) applies the incoming schema-constrained fields onto the
existing record, leaving the key untouched. -/
def dict_to_entity (e : AnnouncementEntity) (f : AnnouncementFields) :
    AnnouncementEntity :=
  { key := e.key, title := f.title, date := f.date,
    html := f.html, is_draft := f.is_draft }

/-- Modelled from the spec: `samples.SAMPLE_ANNOUNCEMENTS` (source not
provided), the fixed sample set used to seed an empty store. The spec
fixes only that the set is a fixed, non-empty collection of announcement
field dicts; two representative entries are used. -/
def SAMPLE_ANNOUNCEMENTS : List AnnouncementFields :=
  [{ title := "Example Announcement", date := 18262,
     html := "Covers everything you need to know.", is_draft := false },
   { title := "Example Draft Announcement", date := 18263,
     html := "Still being written.", is_draft := true }]

/-- `send_json_response`: build the JSON REST envelope. The payload
dict, when supplied and non-empty, is serialized with `json.dumps` and
embedded as a string field of the envelope. -/
def send_json_response (status_code : Int) (message : String)
    (payload_dict : Option Json) : Json :=
  let base := [("status", Json.num status_code), ("message", Json.str message)]
  Json.obj (match payload_dict with
    | some p => if p.truthy then base ++ [("payload", Json.str (Json.dumps p))]
                else base
    | none => base)

/-- `AnnouncementsHandler.default_action`. -/
def default_action : String := "list"

/-- `AnnouncementsHandler.get_actions`. -/
def get_actions : List String := [default_action, "edit"]

/-- `AnnouncementsHandler.post_actions`. -/
def post_actions : List String := ["add", "delete"]

/-- Outcome of action dispatch: either the named handler method runs, or
the request fails with `self.error(404)`. -/
inductive Dispatch where
  | handle (action : String) : Dispatch
  | notFound : Dispatch
deriving DecidableEq, Repr

/-- `AnnouncementsHandler.get` dispatch: `self.request.get('action')`
yields the empty string when the parameter is missing; an empty action
falls back to the default action `list`; an action outside `get_actions`
fails with 404; otherwise the method `get_<action>` runs. -/
def get_dispatch (action : String) : Dispatch :=
  let action := if action == "" then default_action else action
  if get_actions.contains action then .handle action else .notFound

/-- `AnnouncementsHandler.post` dispatch: a missing (empty) action or an
action outside `post_actions` fails with 404; otherwise the method
`post_<action>` runs. -/
def post_dispatch (action : String) : Dispatch :=
  if action == "" || !(post_actions.contains action) then .notFound
  else .handle action

/-- `AnnouncementsHandler.get_action_url`: build the announcements URL
carrying the action and optional key query parameters
(`canonicalize_url` of the host framework is modelled as identity). -/
def get_action_url (action : String) (key : Option String) : String :=
  match key with
  | none => "/announcements?action=" ++ action
  | some k => "/announcements?action=" ++ action ++ "&key=" ++ k

/-- Result of a POST controller action. -/
inductive PostResult where
  | httpError (code : Nat) : PostResult
  | redirect (url : String) : PostResult
  | frameworkError : PostResult
deriving DecidableEq, Repr

/-- `AnnouncementsHandler.post_delete`: requires delete rights (else
HTTP 401); looks the record up by key (`AnnouncementEntity.get` raises
on a malformed key, uncaught here — a framework-level error); deletes
it when present; redirects to the list view. -/
def post_delete (admin : Bool) (s : Store) (key : ReqKey) :
    PostResult × Store :=
  if !can_delete admin then (.httpError 401, s)
  else
    match s.get key with
    | .error () => (.frameworkError, s)
    | .ok none => (.redirect "/announcements", s)
    | .ok (some e) => (.redirect "/announcements", s.deleteKey e.key)

/-- `AnnouncementsHandler.post_add`: requires add rights (else HTTP
401); creates a fresh entity with the placeholder title and body, date
`datetime.datetime.now().date()` (passed in as `now`) and
`is_draft = True`; puts it; redirects to the edit view for its key. -/
def post_add (admin : Bool) (s : Store) (now : Int) : PostResult × Store :=
  if !can_add admin then (.httpError 401, s)
  else
    let (s2, e) := s.create
      { title := "Sample Announcement", date := now,
        html := "Here is my announcement!", is_draft := true }
    (.redirect (get_action_url "edit" (some (toString e.key))), s2)

/-- The identity of the current visitor as supplied by the hosting
framework: whether a user is signed in
(`personalize_page_and_get_user`), whether that user is an enrolled
student (`Student.get_enrolled_student_by_email`), and whether the user
is an admin (`users.is_current_user_admin`). -/
structure Viewer where
  logged_in : Bool
  enrolled : Bool
  admin : Bool
deriving DecidableEq, Repr

/-- The date-descending order used by
`AnnouncementEntity.all().order('-date')`. -/
def dateGe (a b : AnnouncementEntity) : Prop := b.date ≤ a.date

instance : DecidableRel dateGe :=
  fun a b => inferInstanceAs (Decidable (b.date ≤ a.date))

instance : IsTotal AnnouncementEntity dateGe :=
  ⟨fun a b => le_total b.date a.date⟩

instance : IsTrans AnnouncementEntity dateGe :=
  ⟨fun _ _ _ h1 h2 => le_trans h2 h1⟩

/-- `AnnouncementEntity.all().order('-date').fetch(n)`: the stored
records sorted by date descending, capped at `n`. -/
def fetchOrdered (s : Store) (n : Nat) : List AnnouncementEntity :=
  (List.insertionSort dateGe s.records).take n

/-- Loop body of `AnnouncementsHandler.put_sample_announcements`: create
and put one entity per sample dict, collecting the created entities. -/
def putSamples : Store → List AnnouncementFields →
    List AnnouncementEntity × Store
  | s, [] => ([], s)
  | s, f :: fs =>
      let p := s.create f
      let q := putSamples p.1 fs
      (p.2 :: q.1, q.2)

/-- `AnnouncementsHandler.put_sample_announcements`: load the fixed
sample set into the store, returning the created entities. -/
def put_sample_announcements (s : Store) : List AnnouncementEntity × Store :=
  putSamples s SAMPLE_ANNOUNCEMENTS

/-- Result of the `list` controller action. -/
inductive ListResult where
  | redirectLogin : ListResult
  | redirectPreview : ListResult
  | page (items : List AnnouncementEntity) : ListResult
deriving DecidableEq, Repr

/-- `AnnouncementsHandler.get_list`: redirect anonymous visitors to
login and unenrolled users to the preview page; fetch up to 1000
records by date descending; seed the store from the samples when the
fetch comes back empty; render the rights-filtered items. -/
def get_list (v : Viewer) (s : Store) : ListResult × Store :=
  if !v.logged_in then (.redirectLogin, s)
  else if !v.enrolled then (.redirectPreview, s)
  else
    let items := fetchOrdered s 1000
    if items.isEmpty then
      let p := put_sample_announcements s
      (.page (apply_rights v.admin p.1), p.2)
    else
      (.page (apply_rights v.admin items), s)

/-- `ItemRESTHandler.get`: look the record up by key, treating a
`db.BadKeyError` as absence (the lookup is wrapped in try/except);
answer 404 with the key echoed, or 200 with the record serialized per
the schema. -/
def rest_item_get (s : Store) (key : ReqKey) : Json :=
  let entity : Option AnnouncementEntity :=
    match s.get key with
    | .error () => none
    | .ok e => e
  match entity with
  | none =>
      send_json_response 404 "Object not found." (some (.obj [("key", key.json)]))
  | some e =>
      send_json_response 200 "Success." (some (fields_to_json e.fields))

/-- Result of the REST PUT verb: a JSON envelope, or an uncaught
exception surfacing as a framework-level error (`db.BadKeyError` from
the unguarded lookup, or a transform failure on a non-conforming
payload). -/
inductive PutOutcome where
  | response (env : Json) : PutOutcome
  | frameworkError : PutOutcome

/-- `ItemRESTHandler.put`: check edit rights first (else 401 envelope);
look the record up (404 envelope when absent; a malformed key raises,
uncaught); apply the schema-constrained incoming fields onto the
record, persist it and answer the 200 envelope. -/
def rest_item_put (admin : Bool) (s : Store) (key : ReqKey)
    (payload : Json) : PutOutcome × Store :=
  if !can_edit admin then
    (.response (send_json_response 401 "Access denied."
      (some (.obj [("key", key.json)]))), s)
  else
    match s.get key with
    | .error () => (.frameworkError, s)
    | .ok none =>
        (.response (send_json_response 404 "Object not found."
          (some (.obj [("key", key.json)]))), s)
    | .ok (some entity) =>
        match json_to_fields payload with
        | none => (.frameworkError, s)
        | some f =>
            (.response (send_json_response 200 "Saved." none),
             s.putEntity (dict_to_entity entity f))

/-- C1: for every list of announcement records, a viewer without edit
rights sees from `apply_rights` exactly the records with `is_draft`
false — no draft ever appears — and a viewer with edit rights sees
every record unchanged. -/
theorem claim1_apply_rights (items : List AnnouncementEntity) :
    apply_rights false items = items.filter (fun i => !i.is_draft) ∧
    (∀ e ∈ apply_rights false items, e.is_draft = false) ∧
    apply_rights true items = items := by
  refine ⟨rfl, ?_, rfl⟩
  intro e he
  simp only [apply_rights, can_edit, if_neg Bool.false_ne_true,
    List.mem_filter, Bool.not_eq_true'] at he
  exact he.2

/-- Witness for C1 at a concrete two-element list holding one draft. -/
theorem claim1_apply_rights_witness :
    (⟨1, "b", 5, "x", false⟩ : AnnouncementEntity).is_draft = false :=
  (claim1_apply_rights
    [⟨0, "a", 7, "y", true⟩, ⟨1, "b", 5, "x", false⟩]).2.1
    ⟨1, "b", 5, "x", false⟩ (by decide)

/-- C2: a REST PUT by a viewer without edit rights answers the envelope
with status 401, message "Access denied." and the key echoed in the
payload, and leaves the store completely unchanged. -/
theorem claim2_rest_put_unauthorized (admin : Bool) (s : Store)
    (key : ReqKey) (payload : Json) (h : can_edit admin = false) :
    rest_item_put admin s key payload =
      (.response (send_json_response 401 "Access denied."
        (some (.obj [("key", key.json)]))), s) := by
  simp [rest_item_put, h]

/-- Witness for C2 at a concrete non-admin request. -/
theorem claim2_rest_put_unauthorized_witness :
    rest_item_put false Store.empty (ReqKey.valid 0) Json.null =
      (.response (send_json_response 401 "Access denied."
        (some (.obj [("key", (ReqKey.valid 0).json)]))), Store.empty) :=
  claim2_rest_put_unauthorized false Store.empty (ReqKey.valid 0)
    Json.null rfl

/-- C3: a REST GET answers the 404 envelope (message "Object not
found.", key echoed) on a malformed key and on a well-formed key naming
no stored record, and the 200 envelope (message "Success.", record
serialized per the schema as the payload) on a key naming a stored
record. -/
theorem claim3_rest_get (s : Store) (key : ReqKey) :
    (∀ str, key = .malformed str →
      rest_item_get s key = send_json_response 404 "Object not found."
        (some (.obj [("key", key.json)]))) ∧
    (∀ n, key = .valid n →
      s.records.find? (fun r => r.key == n) = none →
      rest_item_get s key = send_json_response 404 "Object not found."
        (some (.obj [("key", key.json)]))) ∧
    (∀ n e, key = .valid n →
      s.records.find? (fun r => r.key == n) = some e →
      rest_item_get s key = send_json_response 200 "Success."
        (some (fields_to_json e.fields))) := by
  refine ⟨?_, ?_, ?_⟩
  · intro str hk
    subst hk
    simp [rest_item_get, Store.get]
  · intro n hk hfind
    subst hk
    simp [rest_item_get, Store.get, hfind]
  · intro n e hk hfind
    subst hk
    simp [rest_item_get, Store.get, hfind]

/-- Witness for C3: a store holding one record, queried with a
malformed key and with the record's key. -/
theorem claim3_rest_get_witness :
    rest_item_get ⟨[⟨0, "t", 3, "h", false⟩], 1⟩ (ReqKey.valid 0) =
      send_json_response 200 "Success."
        (some (fields_to_json
          (AnnouncementEntity.fields ⟨0, "t", 3, "h", false⟩))) :=
  (claim3_rest_get ⟨[⟨0, "t", 3, "h", false⟩], 1⟩ (ReqKey.valid 0)).2.2
    0 ⟨0, "t", 3, "h", false⟩ rfl rfl

/-- C6: GET dispatch resolves a missing (empty) action to the `list`
handler and rejects any action outside the pair list/edit with 404;
POST dispatch rejects a missing action and any action outside the pair
add/delete with 404. -/
theorem claim6_action_dispatch (a : String) :
    get_dispatch "" = .handle default_action ∧
    (a ≠ "" → a ≠ "list" → a ≠ "edit" → get_dispatch a = .notFound) ∧
    post_dispatch "" = .notFound ∧
    (a ≠ "add" → a ≠ "delete" → post_dispatch a = .notFound) := by
  refine ⟨rfl, ?_, rfl, ?_⟩
  · intro h0 h1 h2
    simp [get_dispatch, get_actions, default_action, h0, h1, h2]
  · intro h1 h2
    simp [post_dispatch, post_actions, h1, h2]

/-- Witness for C6 at the unrecognized action string "bogus". -/
theorem claim6_action_dispatch_witness :
    get_dispatch "bogus" = .notFound :=
  (claim6_action_dispatch "bogus").2.1 (by decide) (by decide) (by decide)

/-- C9: every envelope built by `send_json_response` carries an integer
`status`, a string `message`, and — whenever the payload field is
present — a `payload` that is the payload dict serialized by
`json.dumps` and embedded as a JSON string, never a nested JSON
object. -/
theorem claim9_envelope_shape (sc : Int) (msg : String) (pd : Option Json) :
    (send_json_response sc msg pd).lookup "status" = some (.num sc) ∧
    (send_json_response sc msg pd).lookup "message" = some (.str msg) ∧
    (match pd with
     | some d => (send_json_response sc msg pd).lookup "payload" =
         (if d.truthy then some (.str (Json.dumps d)) else none)
     | none => (send_json_response sc msg pd).lookup "payload" = none) ∧
    (∀ j, (send_json_response sc msg pd).lookup "payload" = some j →
      ∃ str, j = Json.str str) := by
  have hshape : ∀ k : String,
      (send_json_response sc msg pd).lookup k =
        (match pd with
         | some d =>
            if d.truthy then
              Json.lookup (.obj [("status", Json.num sc),
                ("message", Json.str msg),
                ("payload", Json.str (Json.dumps d))]) k
            else
              Json.lookup (.obj [("status", Json.num sc),
                ("message", Json.str msg)]) k
         | none =>
            Json.lookup (.obj [("status", Json.num sc),
              ("message", Json.str msg)]) k) := by
    intro k
    cases pd with
    | none => rfl
    | some d =>
      by_cases hd : d.truthy
      · simp [send_json_response, hd]
      · simp [send_json_response, hd]
  refine ⟨?_, ?_, ?_, ?_⟩
  · rw [hshape]
    cases pd with
    | none => rfl
    | some d => by_cases hd : d.truthy <;> simp [hd, Json.lookup]
  · rw [hshape]
    cases pd with
    | none => rfl
    | some d => by_cases hd : d.truthy <;> simp [hd, Json.lookup]
  · cases pd with
    | none => rw [hshape]; rfl
    | some d =>
      rw [hshape]
      by_cases hd : d.truthy <;> simp [hd, Json.lookup]
  · intro j hj
    rw [hshape] at hj
    cases pd with
    | none => simp [Json.lookup] at hj
    | some d =>
      by_cases hd : d.truthy
      · simp [hd, Json.lookup] at hj
        exact ⟨Json.dumps d, hj.symm⟩
      · simp [hd, Json.lookup] at hj

/-- C10: in the REST PUT handler the edit-rights check precedes the
record lookup, so a viewer without edit rights gets the 401 envelope
and an untouched store whether the supplied key is malformed, names no
record, or names a stored record — the 401 outcome takes precedence
over the 404 outcome. -/
theorem claim10_put_rights_precede_lookup (admin : Bool) (s : Store)
    (payload : Json) (h : can_edit admin = false) :
    (∀ str, rest_item_put admin s (.malformed str) payload =
      (.response (send_json_response 401 "Access denied."
        (some (.obj [("key", (ReqKey.malformed str).json)]))), s)) ∧
    (∀ n, s.records.find? (fun r => r.key == n) = none →
      rest_item_put admin s (.valid n) payload =
        (.response (send_json_response 401 "Access denied."
          (some (.obj [("key", (ReqKey.valid n).json)]))), s)) ∧
    (∀ n e, s.records.find? (fun r => r.key == n) = some e →
      rest_item_put admin s (.valid n) payload =
        (.response (send_json_response 401 "Access denied."
          (some (.obj [("key", (ReqKey.valid n).json)]))), s)) := by
  refine ⟨?_, ?_, ?_⟩
  · intro str
    simp [rest_item_put, h]
  · intro n _
    simp [rest_item_put, h]
  · intro n e _
    simp [rest_item_put, h]

/-- Witness for C10: a non-admin PUT with a malformed key still gets
401, not a 404 or a lookup failure. -/
theorem claim10_put_rights_precede_lookup_witness :
    rest_item_put false ⟨[⟨0, "t", 3, "h", false⟩], 1⟩
      (ReqKey.malformed "not-a-key") Json.null =
      (.response (send_json_response 401 "Access denied."
        (some (.obj [("key", (ReqKey.malformed "not-a-key").json)]))),
       ⟨[⟨0, "t", 3, "h", false⟩], 1⟩) :=
  (claim10_put_rights_precede_lookup false ⟨[⟨0, "t", 3, "h", false⟩], 1⟩
    Json.null rfl).1 "not-a-key"

/-- C5: a POST delete by a viewer with delete rights on a well-formed
key naming no stored record completes without error and redirects to
the list view with the store untouched; on a key naming a stored
record it redirects likewise and the record is removed, so a
subsequent get-by-id on the same key reports not-found. -/
theorem claim5_post_delete (admin : Bool) (s : Store) (n : Nat)
    (h : can_delete admin = true) :
    (s.records.find? (fun r => r.key == n) = none →
      post_delete admin s (.valid n) = (.redirect "/announcements", s)) ∧
    (∀ e, s.records.find? (fun r => r.key == n) = some e →
      (post_delete admin s (.valid n)).1 = .redirect "/announcements" ∧
      Store.get (post_delete admin s (.valid n)).2 (.valid n) = .ok none) := by
  constructor
  · intro hfind
    simp [post_delete, h, Store.get, hfind]
  · intro e hfind
    have hkey : e.key = n := by
      have := List.find?_some hfind
      simpa using this
    subst hkey
    constructor
    · simp [post_delete, h, Store.get, hfind]
    · simp only [post_delete, h, Bool.not_true, Bool.false_eq_true,
        if_false, Store.get, hfind]
      simp only [Store.deleteKey, Except.ok.injEq]
      rw [List.find?_eq_none]
      intro x hx
      rw [List.mem_filter] at hx
      simpa using hx.2

/-- Witness for C5: deleting the only stored record makes the
subsequent lookup on its key report not-found. -/
theorem claim5_post_delete_witness :
    Store.get (post_delete true ⟨[⟨0, "t", 3, "h", false⟩], 1⟩
      (ReqKey.valid 0)).2 (ReqKey.valid 0) = .ok none :=
  ((claim5_post_delete true ⟨[⟨0, "t", 3, "h", false⟩], 1⟩ 0 rfl).2
    ⟨0, "t", 3, "h", false⟩ rfl).2

/-- C7: a POST add by a viewer with add rights creates a record whose
draft flag is true, whose title is the non-empty placeholder "Sample
Announcement", whose body is the placeholder text and whose date is
the current date; the response redirects to the edit view for the new
record's key, and a get-by-id on that key yields exactly this
record. -/
theorem claim7_post_add (admin : Bool) (s : Store) (now : Int)
    (hwf : Store.wf s) (h : can_add admin = true) :
    (post_add admin s now).1 =
      .redirect (get_action_url "edit" (some (toString s.next_key))) ∧
    Store.get (post_add admin s now).2 (.valid s.next_key) =
      .ok (some { key := s.next_key, title := "Sample Announcement",
                  date := now, html := "Here is my announcement!",
                  is_draft := true }) ∧
    ("Sample Announcement" : String) ≠ "" := by
  refine ⟨?_, ?_, by decide⟩
  · simp [post_add, h, Store.create]
  · have hnone : s.records.find? (fun r => r.key == s.next_key) = none := by
      rw [List.find?_eq_none]
      intro x hx
      simp only [beq_iff_eq]
      exact Nat.ne_of_lt (hwf x hx)
    simp [post_add, h, Store.create, Store.get, List.find?_append, hnone]

/-- Witness for C7 on the empty store: the fresh record is stored under
key 0 as a draft with the placeholder texts. -/
theorem claim7_post_add_witness :
    Store.get (post_add true Store.empty 42).2 (ReqKey.valid 0) =
      .ok (some { key := 0, title := "Sample Announcement", date := 42,
                  html := "Here is my announcement!", is_draft := true }) :=
  (claim7_post_add true Store.empty 42
    (by simp [Store.wf, Store.empty]) rfl).2.1

/-- Decoding the schema serialization of a field set gives the field
set back: the transform layer loses nothing on schema-conforming
payloads. -/
theorem json_to_fields_fields_to_json (f : AnnouncementFields) :
    json_to_fields (fields_to_json f) = some f := rfl

/-- Replacing, in a record list, every record keyed `n` by a record
`e2` also keyed `n` makes the lookup for `n` yield `e2`, provided the
lookup found some record before. -/
theorem find?_key_map_replace (l : List AnnouncementEntity) (n : Nat)
    (e e2 : AnnouncementEntity)
    (h : l.find? (fun r => r.key == n) = some e) (hk : e2.key = n) :
    (l.map (fun r => if r.key == e2.key then e2 else r)).find?
      (fun r => r.key == n) = some e2 := by
  induction l with
  | nil => simp at h
  | cons x xs ih =>
    by_cases hx : x.key = n
    · simp [hk, hx]
    · have h' : xs.find? (fun r => r.key == n) = some e := by
        rw [List.find?_cons_of_neg] at h
        · exact h
        · simp [hx]
      have hxe2 : (x.key == e2.key) = false := by simp [hk, hx]
      simp only [List.map_cons, hxe2, Bool.false_eq_true, if_false]
      rw [List.find?_cons_of_neg]
      · exact ih h'
      · simp [hx]
    
/-- C4: an editor's REST PUT of a schema-conforming field set onto an
existing record answers the 200 "Saved." envelope and stores the
record updated to those fields; a REST GET on the same key then
answers the 200 "Success." envelope whose payload is exactly the
serialization of the written fields, and decoding that payload gives
back the written fields. -/
theorem claim4_put_get_round_trip (s : Store) (n : Nat)
    (e : AnnouncementEntity) (f : AnnouncementFields)
    (he : s.records.find? (fun r => r.key == n) = some e) :
    rest_item_put true s (.valid n) (fields_to_json f) =
      (.response (send_json_response 200 "Saved." none),
       s.putEntity (dict_to_entity e f)) ∧
    rest_item_get (s.putEntity (dict_to_entity e f)) (.valid n) =
      send_json_response 200 "Success." (some (fields_to_json f)) ∧
    json_to_fields (fields_to_json f) = some f := by
  have hkey : e.key = n := by
    have := List.find?_some he
    simpa using this
  have hk2 : (dict_to_entity e f).key = n := by
    simp [dict_to_entity, hkey]
  refine ⟨?_, ?_, json_to_fields_fields_to_json f⟩
  · simp [rest_item_put, can_edit, Store.get, he,
      json_to_fields_fields_to_json]
  · have hany : s.records.any (fun r => r.key == (dict_to_entity e f).key)
        = true := by
      rw [List.any_eq_true]
      refine ⟨e, List.mem_of_find?_eq_some he, ?_⟩
      simp [hk2, hkey]
    have hfind := find?_key_map_replace s.records n e (dict_to_entity e f)
      he hk2
    simp only [rest_item_get, Store.get, Store.putEntity, hany, if_true,
      hfind]
    have hf : (dict_to_entity e f).fields = f := rfl
    rw [hf]

/-- Witness for C4: writing fresh fields onto the only stored record
and reading them back through the REST pair. -/
theorem claim4_put_get_round_trip_witness :
    rest_item_get
      (Store.putEntity ⟨[⟨0, "old", 1, "body", true⟩], 1⟩
        (dict_to_entity ⟨0, "old", 1, "body", true⟩
          ⟨"X", 18262, "Y", false⟩)) (ReqKey.valid 0) =
      send_json_response 200 "Success."
        (some (fields_to_json ⟨"X", 18262, "Y", false⟩)) :=
  (claim4_put_get_round_trip ⟨[⟨0, "old", 1, "body", true⟩], 1⟩ 0
    ⟨0, "old", 1, "body", true⟩ ⟨"X", 18262, "Y", false⟩ rfl).2.1

/-- C8: the list fetch returns at most 1000 records ordered by date
descending; for an enrolled, signed-in viewer, listing the empty store
seeds it with exactly the fixed sample set, and a subsequent list call
renders the same seeded set (a permutation of it, ordered by date)
without touching the store again. -/
theorem claim8_list_fetch_and_seeding (v : Viewer) (s : Store)
    (h1 : v.logged_in = true) (h2 : v.enrolled = true) :
    (fetchOrdered s 1000).length ≤ 1000 ∧
    List.Sorted dateGe (fetchOrdered s 1000) ∧
    (get_list v Store.empty).2.records =
      (put_sample_announcements Store.empty).1 ∧
    get_list v (get_list v Store.empty).2 =
      (.page (apply_rights v.admin
        (fetchOrdered (get_list v Store.empty).2 1000)),
       (get_list v Store.empty).2) ∧
    (fetchOrdered (get_list v Store.empty).2 1000).Perm
      (put_sample_announcements Store.empty).1 := by
  obtain ⟨lg, en, ad⟩ := v
  simp only at h1 h2
  subst h1
  subst h2
  refine ⟨List.length_take_le _ _, ?_, rfl, rfl, ?_⟩
  · exact List.Pairwise.sublist (List.take_sublist 1000 _)
      (List.sorted_insertionSort dateGe s.records)
  · cases ad <;> decide

/-- Witness for C8 at an admin viewer: the second list call on the
seeded store leaves the store exactly as the seeding left it. -/
theorem claim8_list_fetch_and_seeding_witness :
    get_list ⟨true, true, true⟩ (get_list ⟨true, true, true⟩ Store.empty).2 =
      (.page (apply_rights true
        (fetchOrdered (get_list ⟨true, true, true⟩ Store.empty).2 1000)),
       (get_list ⟨true, true, true⟩ Store.empty).2) :=
  (claim8_list_fetch_and_seeding ⟨true, true, true⟩ Store.empty
    rfl rfl).2.2.2.1

/-- Witness for C9 at the concrete 404 envelope: the payload field is
the serialized key dict embedded as a JSON string. -/
theorem claim9_envelope_shape_witness :
    (send_json_response 404 "Object not found."
      (some (.obj [("key", Json.str "k")]))).lookup "payload" =
      some (.str (Json.dumps (.obj [("key", Json.str "k")]))) := by
  have h := (claim9_envelope_shape 404 "Object not found."
    (some (.obj [("key", Json.str "k")]))).2.2.1
  simpa using h
